import Mathlib

/-!
Shallow embedding of the Window Positioner core
(src/window_positioner_v3.py): the profile-window classifier, the
profile-set builder, the grid layout planner embedded in
`position_windows`, and the four batched automation actions
(position, resize, zoom, navigate).

Modelling conventions:
* Window titles and class names are lists of characters; the classifier
  uses ASCII case folding (`Char.toLower`), matching the behaviour of the
  Python code on ASCII titles.
* Every OS primitive the actions issue (ShowWindow, SetWindowPos,
  SetForegroundWindow, GetWindowRect, keyboard events, sleeps) is recorded
  as a `Call`.  An abstract oracle `os : Call → Bool` says whether a given
  primitive call completes normally (`true`) or raises (`false`); this
  models a window closing mid-batch or a keyboard/foreground call failing.
* `get_profile_windows` is modelled as a function of the list of window
  states the enumerator would see.
-/

/-- One top-level window as seen through the OS: handle, visibility,
title text, window-class name, owning-process creation timestamp, and the
rectangle `GetWindowRect` reports after the window is restored. -/
structure Rect where
  left : Int
  top : Int
  right : Int
  bottom : Int
deriving DecidableEq, Repr

structure WinState where
  hwnd : Nat
  visible : Bool
  title : List Char
  className : List Char
  creation : Nat
  rect : Rect
deriving DecidableEq, Repr

/-- `needle.isSublistOf hay`: does `hay` contain `needle` as a contiguous
substring?  Models the Python `needle in hay` test on strings. -/
def isSubstr (needle : List Char) : List Char → Bool
  | [] => needle.isEmpty
  | c :: rest => needle.isPrefixOf (c :: rest) || isSubstr needle rest

/-- PROFILE_INDICATORS from the source. -/
def PROFILE_INDICATORS : List (List Char) :=
  ["whoerip".toList, "whoer".toList, "mimic".toList]

/-- EXCLUDE_INDICATORS from the source. -/
def EXCLUDE_INDICATORS : List (List Char) :=
  ["multilogin x app".toList, "multilogin app".toList]

/-- A word character in the sense of the regex `\b` boundary
(ASCII letters, digits, underscore). -/
def isWordChar (c : Char) : Bool :=
  c.isAlpha || c.isDigit || c = '_'

/-- After the digit run of the pattern: the remaining text must start
with more digits and then hit a word boundary (end of string or a
non-word character).  Together with backtracking over the length of the
digit run, a match of the tail of the regex exists exactly when the
maximal digit run is followed by a boundary. -/
def digitsThenBoundary : List Char → Bool
  | [] => true
  | c :: rest => if c.isDigit then digitsThenBoundary rest else !(isWordChar c)

/-- Tail of the pattern after the two uppercase letters: at least one
digit, then a word boundary. -/
def digitsTail : List Char → Bool
  | [] => false
  | c :: rest => c.isDigit && digitsThenBoundary rest

/-- Scan of the regex search `re.search(r'\b[A-Z]{2}\d+\b', title)`:
somewhere in the text, at a position preceded by a non-word character (or
the start), two ASCII uppercase letters followed by one or more digits
followed by a boundary.  `prevIsWord` records whether the character just
before the current position is a word character. -/
def scanProfilePattern (prevIsWord : Bool) : List Char → Bool
  | [] => false
  | [_] => false
  | a :: b :: rest =>
    (!prevIsWord && a.isUpper && b.isUpper && digitsTail rest)
    || scanProfilePattern (isWordChar a) (b :: rest)

/-- `re.search` of the single entry of PROFILE_PATTERNS against the
(original-case) title. -/
def matchesProfilePattern (title : List Char) : Bool :=
  scanProfilePattern false title

/-- The class-name substring tested by the final classifier rule. -/
def chromeWidgetwin : List Char := "chrome_widgetwin".toList

/-- Lower-case a character list (ASCII), modelling Python str.lower. -/
def lowerStr (s : List Char) : List Char := s.map Char.toLower

/-- `WindowPositioner.is_profile_window`: visibility check, empty-title
check, exclusion list, inclusion list, then regex pattern combined with
the window-class substring test. -/
def is_profile_window (w : WinState) : Bool :=
  if !w.visible then false
  else
    let title_lower := lowerStr w.title
    let class_name := lowerStr w.className
    if w.title.isEmpty then false
    else if EXCLUDE_INDICATORS.any (fun e => isSubstr e title_lower) then false
    else if PROFILE_INDICATORS.any (fun p => isSubstr p title_lower) then true
    else if matchesProfilePattern w.title && isSubstr chromeWidgetwin class_name then true
    else false

/-- Comparison key used by `windows.sort(key=lambda x: x[2])`: ascending
process creation time. -/
def creationLe (a b : WinState) : Bool := a.creation ≤ b.creation

/-- The classifier-accepted windows in creation-time order, before the
projection to `(hwnd, title)` pairs.  Python list.sort is a stable merge
sort ascending by the key. -/
def profileRecords (ws : List WinState) : List WinState :=
  (ws.filter is_profile_window).mergeSort creationLe

/-- `WindowPositioner.get_profile_windows`: enumerate, filter through the
classifier, sort ascending by process creation time, return
`(hwnd, title)` pairs. -/
def get_profile_windows (ws : List WinState) : List (Nat × List Char) :=
  (profileRecords ws).map (fun w => (w.hwnd, w.title))

/-- The layout settings consumed by `position_windows`: grid_cols and
grid_rows (0 = auto), gaps, and the saved window size. -/
structure LayoutConfig where
  grid_cols : Nat
  grid_rows : Nat
  h_gap : Nat
  v_gap : Nat
  window_width : Nat
  window_height : Nat
deriving DecidableEq, Repr

/-- Columns after the auto step:
`if cols == 0: cols = max(1, work_w // (win_w + h_gap))`. -/
def autoCols (cfg : LayoutConfig) (work_w : Nat) : Nat :=
  if cfg.grid_cols = 0 then max 1 (work_w / (cfg.window_width + cfg.h_gap))
  else cfg.grid_cols

/-- Rows after the auto step:
`if rows == 0: rows = max(1, work_h // (win_h + v_gap))`. -/
def autoRows (cfg : LayoutConfig) (work_h : Nat) : Nat :=
  if cfg.grid_rows = 0 then max 1 (work_h / (cfg.window_height + cfg.v_gap))
  else cfg.grid_rows

/-- The loop `while cols * rows < num_windows: cols += 1`, written with
explicit fuel; `count` units of fuel always suffice when `rows ≥ 1`. -/
def growCols : Nat → Nat → Nat → Nat → Nat
  | 0, cols, _, _ => cols
  | fuel + 1, cols, rows, count =>
    if cols * rows < count then growCols fuel (cols + 1) rows count else cols

/-- The final column count of the planner. -/
def planCols (cfg : LayoutConfig) (work_w work_h count : Nat) : Nat :=
  growCols count (autoCols cfg work_w) (autoRows cfg work_h) count

/-- One planned rectangle: `x = col * (win_w + h_gap)`,
`y = row * (win_h + v_gap)`, size `win_w × win_h`. -/
structure GridCell where
  x : Nat
  y : Nat
  w : Nat
  h : Nat
deriving DecidableEq, Repr

/-- The cell of window `i`: `col = i % cols`, `row = i // cols`,
`x = col * (win_w + h_gap)`, `y = row * (win_h + v_gap)`, uniform size. -/
def gridCellAt (cfg : LayoutConfig) (cols i : Nat) : GridCell :=
  ⟨(i % cols) * (cfg.window_width + cfg.h_gap),
   (i / cols) * (cfg.window_height + cfg.v_gap),
   cfg.window_width, cfg.window_height⟩

/-- The grid layout embedded in `position_windows` (lines 202-226): auto
columns/rows, growth of columns until `cols * rows ≥ count`, then cell
`i ↦ (i % cols, i // cols)` scaled by target size plus gap. -/
def plan_grid (cfg : LayoutConfig) (work_w work_h count : Nat) : List GridCell :=
  (List.range count).map (gridCellAt cfg (planCols cfg work_w work_h count))

/-- Two cells overlap when their half-open extents intersect on both
axes. -/
def overlaps (c d : GridCell) : Prop :=
  c.x < d.x + d.w ∧ d.x < c.x + c.w ∧ c.y < d.y + d.h ∧ d.y < c.y + c.h

instance (c d : GridCell) : Decidable (overlaps c d) := by
  unfold overlaps; infer_instance

/-- The zoom lookup table of `apply_zoom_to_all`, in the insertion order
of the Python dict (which fixes the tie-break of min). -/
def zoom_steps : List (Int × Nat) :=
  [(100, 0), (90, 1), (80, 2), (75, 3), (67, 4), (50, 5), (33, 6), (25, 7), (35, 6)]

/-- `min(zoom_steps.keys(), key=lambda x: abs(x - zoom_percent))`:
the first key (in iteration order) whose absolute distance to the request
is minimal. -/
def closestZoomKey (zoom_percent : Int) : Int :=
  (zoom_steps.map Prod.fst).foldl
    (fun best k => if (k - zoom_percent).natAbs < (best - zoom_percent).natAbs then k else best)
    100

/-- The step count the zoom action uses for a requested percentage. -/
def zoomStepCount (zoom_percent : Int) : Nat :=
  (zoom_steps.lookup (closestZoomKey zoom_percent)).getD 0

/-- One OS primitive issued by an action.  Sleep durations are in
hundredths of a second (0.03 s = 3, 0.15 s = 15, 2 s = 200). -/
inductive Call where
  | showWindow (hwnd : Nat)
  | setForeground (hwnd : Nat)
  | getRect (hwnd : Nat)
  | setWindowPos (hwnd : Nat) (x y w h : Int)
  | key (combo : List Char)
  | write (text : List Char)
  | sleep (centis : Nat)
deriving DecidableEq, Repr

/-- Run one window's sub-sequence of primitive calls against the oracle:
calls execute in order until the first one that raises.  Returns whether
the whole sub-sequence completed, and the trace of calls that completed.
-/
def execCalls (os : Call → Bool) : List Call → Bool × List Call
  | [] => (true, [])
  | c :: rest =>
    if os c then
      let (ok, t) := execCalls os rest
      (ok, c :: t)
    else (false, [])

/-- The per-window loop of an action whose body is wrapped in
try/except: a raise inside one window's sub-sequence is swallowed and the
loop moves on to the next window.  Returns the concatenated trace. -/
def runCaught (os : Call → Bool) : List (List Call) → List Call
  | [] => []
  | calls :: rest => (execCalls os calls).2 ++ runCaught os rest

/-- The per-window loop of an action with no try/except: a raise inside
one window's sub-sequence propagates, the remaining windows are never
visited.  Returns `false` with the partial trace in that case. -/
def runUncaught (os : Call → Bool) : List (List Call) → Bool × List Call
  | [] => (true, [])
  | calls :: rest =>
    match execCalls os calls with
    | (true, t) =>
      let (ok, t2) := runUncaught os rest
      (ok, t ++ t2)
    | (false, t) => (false, t)

/-- One window's sub-sequence inside `position_windows`:
restore, sleep 0.03 s, one SetWindowPos to the planned cell. -/
def positionWindowCalls (cfg : LayoutConfig) (cell : GridCell) (w : WinState) : List Call :=
  [Call.showWindow w.hwnd, Call.sleep 3,
   Call.setWindowPos w.hwnd cell.x cell.y cfg.window_width cfg.window_height]

/-- `WindowPositioner.position_windows`: empty set short-circuits to 0;
otherwise plan the grid and move every window, with no per-window
exception handler — the result is an error (carrying the partial trace)
if any window's sub-sequence raises. -/
def position_windows (os : Call → Bool) (cfg : LayoutConfig)
    (work_w work_h : Nat) (windows : List WinState) :
    Except (List Call) (Nat × List Call) :=
  if windows.isEmpty then .ok (0, [])
  else
    let cells := plan_grid cfg work_w work_h windows.length
    let seqs := (windows.zip cells).map fun wc => positionWindowCalls cfg wc.2 wc.1
    match runUncaught os seqs with
    | (true, t) => .ok (windows.length, t)
    | (false, t) => .error t

/-- One window's sub-sequence inside `apply_zoom_to_all`:
restore, foreground, sleep 0.15 s, Ctrl+0, sleep 0.08 s, then `steps`
times (Ctrl+minus, sleep 0.08 s). -/
def zoomWindowCalls (steps : Nat) (w : WinState) : List Call :=
  [Call.showWindow w.hwnd, Call.setForeground w.hwnd, Call.sleep 15,
   Call.key "ctrl+0".toList, Call.sleep 8]
  ++ (List.replicate steps [Call.key "ctrl+-".toList, Call.sleep 8]).flatten

/-- `WindowPositioner.apply_zoom_to_all`: empty set short-circuits to 0;
otherwise map the percentage through the table and drive every window,
each window's body wrapped in try/except; returns `len(windows)`. -/
def apply_zoom_to_all (os : Call → Bool) (zoom_percent : Int)
    (windows : List WinState) : Nat × List Call :=
  if windows.isEmpty then (0, [])
  else
    let steps := zoomStepCount zoom_percent
    (windows.length, runCaught os (windows.map (zoomWindowCalls steps)))

/-- One window's sub-sequence inside `resize_all_windows`:
restore, sleep 0.05 s, GetWindowRect, then SetWindowPos at the current
top-left with the new size. -/
def resizeWindowCalls (width height : Int) (w : WinState) : List Call :=
  [Call.showWindow w.hwnd, Call.sleep 5, Call.getRect w.hwnd,
   Call.setWindowPos w.hwnd w.rect.left w.rect.top width height]

/-- `WindowPositioner.resize_all_windows`: empty set short-circuits to 0;
otherwise resize every window at its current position, each window's body
wrapped in try/except; returns `len(windows)`. -/
def resize_all_windows (os : Call → Bool) (width height : Int)
    (windows : List WinState) : Nat × List Call :=
  if windows.isEmpty then (0, [])
  else (windows.length, runCaught os (windows.map (resizeWindowCalls width height)))

/-- Python str.strip character class (whitespace). -/
def pyIsSpace (c : Char) : Bool :=
  c = ' ' || c = '\t' || c = '\n' || c = '\r' || c = '\x0b' || c = '\x0c'

/-- Python str.strip: drop whitespace from both ends. -/
def pyStrip (s : List Char) : List Char :=
  ((s.dropWhile pyIsSpace).reverse.dropWhile pyIsSpace).reverse

/-- Prepend the secure-transport scheme when no scheme is present. -/
def normalizeUrl (url : List Char) : List Char :=
  if "http://".toList.isPrefixOf url || "https://".toList.isPrefixOf url then url
  else "https://".toList ++ url

/-- One window's sub-sequence inside `open_url_in_all`:
restore, foreground, sleep 0.15 s, Ctrl+T, sleep 0.3 s, type the URL,
sleep 0.15 s, Enter, sleep 0.2 s. -/
def urlWindowCalls (url : List Char) (w : WinState) : List Call :=
  [Call.showWindow w.hwnd, Call.setForeground w.hwnd, Call.sleep 15,
   Call.key "ctrl+t".toList, Call.sleep 30, Call.write url, Call.sleep 15,
   Call.key "enter".toList, Call.sleep 20]

/-- `WindowPositioner.open_url_in_all`: empty set short-circuits to 0;
blank URL (empty or whitespace only) short-circuits to 0 before any OS
call; otherwise strip and normalise the URL, drive every window (each
body wrapped in try/except), optionally sleep 2 s and run the zoom pass,
and return `len(windows)`. -/
def open_url_in_all (os : Call → Bool) (url : List Char)
    (apply_zoom_after : Bool) (zoom_percent : Int)
    (windows : List WinState) : Nat × List Call :=
  if windows.isEmpty then (0, [])
  else if (pyStrip url).isEmpty then (0, [])
  else
    let u := normalizeUrl (pyStrip url)
    let t1 := runCaught os (windows.map (urlWindowCalls u))
    let t2 := if apply_zoom_after then
        Call.sleep 200 :: (apply_zoom_to_all os zoom_percent windows).2
      else []
    (windows.length, t1 ++ t2)

/-- Effect of one completed primitive call on a window's state: only a
SetWindowPos addressed to this window changes it, placing its rectangle
at the requested position and size. -/
def applyCall (w : WinState) : Call → WinState
  | Call.setWindowPos h x y cw ch =>
    if h = w.hwnd then { w with rect := ⟨x, y, x + cw, y + ch⟩ } else w
  | _ => w

/-- Effect of a trace of completed calls on a window's state. -/
def applyCalls (w : WinState) (calls : List Call) : WinState :=
  calls.foldl applyCall w

/-! ### Lemmas about the grid planner -/

theorem growCols_ge (fuel cols rows count : Nat) :
    cols ≤ growCols fuel cols rows count := by
  induction fuel generalizing cols with
  | zero => simp [growCols]
  | succ n ih =>
    rw [growCols]
    by_cases h : cols * rows < count
    · rw [if_pos h]
      exact le_trans (Nat.le_succ cols) (ih (cols + 1))
    · rw [if_neg h]

theorem growCols_covers (fuel cols rows count : Nat) (hrows : 1 ≤ rows)
    (hfuel : count ≤ fuel + cols * rows) :
    count ≤ growCols fuel cols rows count * rows := by
  induction fuel generalizing cols with
  | zero => simpa [growCols] using hfuel
  | succ n ih =>
    rw [growCols]
    by_cases h : cols * rows < count
    · rw [if_pos h]
      apply ih
      have hm : (cols + 1) * rows = cols * rows + rows := by ring
      rw [hm]
      omega
    · rw [if_neg h]
      omega

theorem autoCols_pos (cfg : LayoutConfig) (work_w : Nat) :
    1 ≤ autoCols cfg work_w := by
  unfold autoCols
  split <;> omega

theorem autoRows_pos (cfg : LayoutConfig) (work_h : Nat) :
    1 ≤ autoRows cfg work_h := by
  unfold autoRows
  split <;> omega

theorem planCols_pos (cfg : LayoutConfig) (work_w work_h count : Nat) :
    1 ≤ planCols cfg work_w work_h count :=
  le_trans (autoCols_pos cfg work_w) (growCols_ge count _ _ count)

theorem planCols_covers (cfg : LayoutConfig) (work_w work_h count : Nat) :
    count ≤ planCols cfg work_w work_h count * autoRows cfg work_h :=
  growCols_covers count _ _ count (autoRows_pos cfg work_h)
    (Nat.le_add_right count _)

/-- Cells in earlier grid slots end (with their gap) before later slots
start. -/
theorem slotSep (a b w g : Nat) (hab : a < b) :
    a * (w + g) + w ≤ b * (w + g) := by
  have h1 : a * (w + g) + (w + g) = (a + 1) * (w + g) := by ring
  have h2 : (a + 1) * (w + g) ≤ b * (w + g) :=
    Nat.mul_le_mul_right _ hab
  omega

/-- Distinct grid indices give non-overlapping cells. -/
theorem gridCellAt_not_overlaps (cfg : LayoutConfig) (cols i j : Nat)
    (hij : i < j) :
    ¬ overlaps (gridCellAt cfg cols i) (gridCellAt cfg cols j) := by
  rintro ⟨h1, h2, h3, h4⟩
  simp only [gridCellAt] at h1 h2 h3 h4
  rcases Nat.lt_trichotomy (i % cols) (j % cols) with hm | hm | hm
  · have := slotSep (i % cols) (j % cols) cfg.window_width cfg.h_gap hm
    omega
  · rcases Nat.lt_trichotomy (i / cols) (j / cols) with hd | hd | hd
    · have := slotSep (i / cols) (j / cols) cfg.window_height cfg.v_gap hd
      omega
    · have hi := Nat.div_add_mod i cols
      have hj := Nat.div_add_mod j cols
      rw [hm, hd] at hi
      omega
    · have := slotSep (j / cols) (i / cols) cfg.window_height cfg.v_gap hd
      omega
  · have := slotSep (j % cols) (i % cols) cfg.window_width cfg.h_gap hm
    omega

/-- C3: for every count ≥ 1, non-negative gaps, positive target
width/height and any starting grid configuration, the planner produces
exactly `count` cells, every cell has the configured target width and
height, no two distinct cells overlap, and the final `columns × rows`
satisfies `columns * rows ≥ count`. -/
theorem plan_grid_correct (cfg : LayoutConfig) (work_w work_h count : Nat)
    (_hcount : 1 ≤ count)
    (_hw : 1 ≤ cfg.window_width) (_hh : 1 ≤ cfg.window_height) :
    (plan_grid cfg work_w work_h count).length = count ∧
    (∀ c ∈ plan_grid cfg work_w work_h count,
        c.w = cfg.window_width ∧ c.h = cfg.window_height) ∧
    (plan_grid cfg work_w work_h count).Pairwise (fun c d => ¬ overlaps c d) ∧
    count ≤ planCols cfg work_w work_h count * autoRows cfg work_h := by
  refine ⟨by simp [plan_grid], ?_, ?_, planCols_covers cfg work_w work_h count⟩
  · intro c hc
    rw [plan_grid, List.mem_map] at hc
    obtain ⟨i, _, rfl⟩ := hc
    exact ⟨rfl, rfl⟩
  · rw [plan_grid]
    apply List.pairwise_map.mpr
    exact (List.pairwise_lt_range count).imp
      (fun hab => gridCellAt_not_overlaps cfg _ _ _ hab)

/-- Witness for C3 at the configuration of the end-to-end scenario. -/
theorem plan_grid_correct_witness :
    (1 ≤ 5 ∧ 1 ≤ 550 ∧ 1 ≤ 600) ∧
    ((plan_grid ⟨0, 0, 10, 10, 550, 600⟩ 1920 1040 5).length = 5 ∧
     (∀ c ∈ plan_grid ⟨0, 0, 10, 10, 550, 600⟩ 1920 1040 5,
         c.w = 550 ∧ c.h = 600) ∧
     (plan_grid ⟨0, 0, 10, 10, 550, 600⟩ 1920 1040 5).Pairwise
        (fun c d => ¬ overlaps c d) ∧
     5 ≤ planCols ⟨0, 0, 10, 10, 550, 600⟩ 1920 1040 5 *
        autoRows ⟨0, 0, 10, 10, 550, 600⟩ 1040) :=
  ⟨⟨by decide, by decide, by decide⟩,
   plan_grid_correct ⟨0, 0, 10, 10, 550, 600⟩ 1920 1040 5
     (by decide) (by decide) (by decide)⟩

/-- C4: the end-to-end scenario: 5 windows, auto grid, target 550×600,
gaps 10×10, work area 1920×1040: the auto step computes columns = 3 and
rows = 1, the growth loop raises columns (rows unchanged) to 5, and the
cells are (0,0), (560,0), (1120,0), (1680,0), (2240,0), each 550×600. -/
theorem plan_grid_scenario :
    autoCols ⟨0, 0, 10, 10, 550, 600⟩ 1920 = 3 ∧
    autoRows ⟨0, 0, 10, 10, 550, 600⟩ 1040 = 1 ∧
    planCols ⟨0, 0, 10, 10, 550, 600⟩ 1920 1040 5 = 5 ∧
    plan_grid ⟨0, 0, 10, 10, 550, 600⟩ 1920 1040 5 =
      [⟨0, 0, 550, 600⟩, ⟨560, 0, 550, 600⟩, ⟨1120, 0, 550, 600⟩,
       ⟨1680, 0, 550, 600⟩, ⟨2240, 0, 550, 600⟩] := by
  refine ⟨by decide, by decide, by decide, by decide⟩

/-! ### Classifier theorems -/

/-- C5: for every visible window with a non-empty title containing no
exclusion string and no inclusion keyword but matching the whole-word
two-uppercase-letters-then-digits pattern, the classifier accepts the
window exactly when its class name contains the browser-engine class
substring, case-insensitively. -/
theorem is_profile_window_pattern_case (w : WinState)
    (hvis : w.visible = true)
    (hne : w.title.isEmpty = false)
    (hexc : EXCLUDE_INDICATORS.any (fun e => isSubstr e (lowerStr w.title)) = false)
    (hinc : PROFILE_INDICATORS.any (fun p => isSubstr p (lowerStr w.title)) = false)
    (hpat : matchesProfilePattern w.title = true) :
    is_profile_window w = isSubstr chromeWidgetwin (lowerStr w.className) := by
  unfold is_profile_window
  rw [hvis]
  simp only [Bool.not_true, Bool.false_eq_true, if_false, hne, hexc, hinc, hpat,
    Bool.true_and]
  cases hcl : isSubstr chromeWidgetwin (lowerStr w.className) <;> simp [hcl]

/-- Witness for C5: title AB12, class Chrome_WidgetWin_1. -/
theorem is_profile_window_pattern_case_witness :
    ((⟨1, true, "AB12".toList, "Chrome_WidgetWin_1".toList, 0,
        ⟨0, 0, 0, 0⟩⟩ : WinState).visible = true ∧
     ("AB12".toList.isEmpty = false) ∧
     (EXCLUDE_INDICATORS.any (fun e => isSubstr e (lowerStr "AB12".toList)) = false) ∧
     (PROFILE_INDICATORS.any (fun p => isSubstr p (lowerStr "AB12".toList)) = false) ∧
     matchesProfilePattern "AB12".toList = true) ∧
    is_profile_window ⟨1, true, "AB12".toList, "Chrome_WidgetWin_1".toList, 0,
        ⟨0, 0, 0, 0⟩⟩ =
      isSubstr chromeWidgetwin (lowerStr "Chrome_WidgetWin_1".toList) :=
  ⟨⟨by decide, by decide, by decide, by decide, by decide⟩,
   is_profile_window_pattern_case _ (by decide) (by decide) (by decide)
     (by decide) (by decide)⟩

/-- C6: any window whose lower-cased title contains an exclusion string
is rejected, even when the title also contains an inclusion keyword. -/
theorem is_profile_window_excluded (w : WinState)
    (hexc : EXCLUDE_INDICATORS.any (fun e => isSubstr e (lowerStr w.title)) = true) :
    is_profile_window w = false := by
  unfold is_profile_window
  cases hv : w.visible
  · simp
  · simp only [Bool.not_true, Bool.false_eq_true, if_false, hexc]
    split <;> simp

/-- Witness for C6: a title that contains both the inclusion keyword
mimic and the exclusion string multilogin app. -/
theorem is_profile_window_excluded_witness :
    (EXCLUDE_INDICATORS.any
       (fun e => isSubstr e (lowerStr "mimic Multilogin App".toList)) = true) ∧
    (PROFILE_INDICATORS.any
       (fun p => isSubstr p (lowerStr "mimic Multilogin App".toList)) = true) ∧
    is_profile_window ⟨1, true, "mimic Multilogin App".toList, "x".toList, 0,
        ⟨0, 0, 0, 0⟩⟩ = false :=
  ⟨by decide, by decide, is_profile_window_excluded _ (by decide)⟩

/-! ### Zoom mapping theorems -/

/-- The fold implementing `min(keys, key=lambda x: abs(x - p))` never
moves further from `p` than its accumulator or any listed key. -/
theorem foldMin_natAbs_le (p : Int) (ks : List Int) :
    ∀ init : Int,
      ((ks.foldl (fun best k =>
          if (k - p).natAbs < (best - p).natAbs then k else best) init) - p).natAbs
        ≤ (init - p).natAbs ∧
      ∀ k ∈ ks,
        ((ks.foldl (fun best k =>
            if (k - p).natAbs < (best - p).natAbs then k else best) init) - p).natAbs
          ≤ (k - p).natAbs := by
  induction ks with
  | nil => intro init; simp
  | cons a t ih =>
    intro init
    simp only [List.foldl_cons]
    by_cases h : (a - p).natAbs < (init - p).natAbs
    · rw [if_pos h]
      refine ⟨le_trans (ih a).1 (le_of_lt h), ?_⟩
      intro k hk
      rcases List.mem_cons.mp hk with rfl | hk'
      · exact (ih k).1
      · exact (ih a).2 k hk'
    · rw [if_neg h]
      refine ⟨(ih init).1, ?_⟩
      intro k hk
      rcases List.mem_cons.mp hk with rfl | hk'
      · exact le_trans (ih init).1 (le_of_not_lt h)
      · exact (ih init).2 k hk'

/-- C7: the zoom mapping is a function of the requested percentage whose
chosen key is nearest among the table keys by absolute difference;
requesting 35 yields 6 steps, and requesting 60 selects the 67 entry,
yielding 4 steps. -/
theorem zoomStepCount_spec :
    (∀ p : Int, ∀ k ∈ zoom_steps.map Prod.fst,
        (closestZoomKey p - p).natAbs ≤ (k - p).natAbs) ∧
    zoomStepCount 35 = 6 ∧
    closestZoomKey 60 = 67 ∧ zoomStepCount 60 = 4 := by
  refine ⟨?_, by decide, by decide, by decide⟩
  intro p k hk
  exact (foldMin_natAbs_le p (zoom_steps.map Prod.fst) 100).2 k hk

/-! ### Resize theorems -/

/-- C8: the sub-sequence the resize action issues for one window keeps
that window's current top-left corner and applies only the new size: the
window ends at rectangle
(left, top) - (left + width, top + height). -/
theorem resize_keeps_position (w : WinState) (width height : Int) :
    (applyCalls w (resizeWindowCalls width height w)).rect =
      ⟨w.rect.left, w.rect.top, w.rect.left + width, w.rect.top + height⟩ ∧
    (applyCalls w (resizeWindowCalls width height w)).rect.left = w.rect.left ∧
    (applyCalls w (resizeWindowCalls width height w)).rect.top = w.rect.top := by
  refine ⟨?_, ?_, ?_⟩ <;> simp [resizeWindowCalls, applyCalls, applyCall]

/-! ### Navigate theorems -/

/-- A list all of whose characters are whitespace strips to empty. -/
theorem pyStrip_of_all_space (url : List Char)
    (h : url.all pyIsSpace = true) : (pyStrip url).isEmpty = true := by
  have hd : url.dropWhile pyIsSpace = [] := by
    rw [List.dropWhile_eq_nil_iff]
    intro x hx
    exact List.all_eq_true.mp h x hx
  simp [pyStrip, hd]

/-- C10: a blank URL (empty or whitespace only) makes the navigate
action return 0 with no OS call dispatched, also on a non-empty
ProfileSet. -/
theorem open_url_blank (os : Call → Bool) (url : List Char)
    (apply_zoom_after : Bool) (zoom_percent : Int) (windows : List WinState)
    (h : url.all pyIsSpace = true) :
    open_url_in_all os url apply_zoom_after zoom_percent windows = (0, []) := by
  unfold open_url_in_all
  cases hw : windows.isEmpty
  · simp [hw, pyStrip_of_all_space url h]
  · simp [hw]

/-- Witness for C10: one managed window, a whitespace-only URL. -/
theorem open_url_blank_witness :
    ("  ".toList.all pyIsSpace = true) ∧
    open_url_in_all (fun _ => true) "  ".toList true 50
      [⟨1, true, "AB12".toList, "Chrome_WidgetWin_1".toList, 0, ⟨0, 0, 0, 0⟩⟩]
      = (0, []) :=
  ⟨by decide, open_url_blank _ _ _ _ _ (by decide)⟩

/-! ### Profile set builder theorems -/

/-- C9: the builder returns exactly the classifier-accepted windows,
as a permutation of the filtered enumeration, sorted ascending by the
process creation timestamp, projected to (handle, title) pairs. -/
theorem get_profile_windows_spec (ws : List WinState) :
    List.Perm (profileRecords ws) (ws.filter is_profile_window) ∧
    (profileRecords ws).Pairwise (fun a b => a.creation ≤ b.creation) ∧
    get_profile_windows ws = (profileRecords ws).map (fun w => (w.hwnd, w.title)) := by
  refine ⟨List.mergeSort_perm _ _, ?_, rfl⟩
  have hs := @List.sorted_mergeSort WinState creationLe
    (fun a b c hab hbc => by
      simp only [creationLe, decide_eq_true_eq] at *
      omega)
    (fun a b => by
      simp only [creationLe, Bool.or_eq_true, decide_eq_true_eq]
      omega)
    (ws.filter is_profile_window)
  exact hs.imp (fun h => by simpa [creationLe] using h)

/-! ### Batch error-handling theorems -/

/-- The try/except loop processes every window independently: the trace
is the concatenation of the per-window executed calls, whatever the
failure pattern. -/
theorem runCaught_eq_flatten (os : Call → Bool) (seqs : List (List Call)) :
    runCaught os seqs = (seqs.map (fun s => (execCalls os s).2)).flatten := by
  induction seqs with
  | nil => simp [runCaught]
  | cons s rest ih => simp [runCaught, ih]

/-- C1 counterexample: in the position action, which has no per-window
try/except, a raising OS call in the first window's sub-sequence aborts
the batch: the result is an error and the second window is never
touched (the trace is empty), instead of the action continuing with the
remaining window. -/
theorem position_windows_aborts :
    position_windows
      (fun c => match c with | Call.showWindow 1 => false | _ => true)
      ⟨0, 0, 10, 10, 550, 600⟩ 1920 1040
      [⟨1, true, "AB12".toList, "cw".toList, 0, ⟨0, 0, 0, 0⟩⟩,
       ⟨2, true, "AB13".toList, "cw".toList, 0, ⟨0, 0, 0, 0⟩⟩]
      = Except.error [] := by
  rfl

/-- C1 amended: in the zoom, resize and navigate actions (whose
per-window bodies are wrapped in try/except), an OS-call failure in one
window's sub-sequence only cuts short that window's own calls: the
returned trace is the independent concatenation of every window's
executed calls and the count is the full window count, for every failure
pattern.  (The position action has no such handler; see the
counterexample.) -/
theorem caught_actions_skip_failures (os : Call → Bool)
    (windows : List WinState) (zoom_percent width height : Int)
    (url : List Char) (hurl : (pyStrip url).isEmpty = false)
    (hne : windows ≠ []) :
    apply_zoom_to_all os zoom_percent windows =
      (windows.length,
       (windows.map (fun w =>
          (execCalls os (zoomWindowCalls (zoomStepCount zoom_percent) w)).2)).flatten) ∧
    resize_all_windows os width height windows =
      (windows.length,
       (windows.map (fun w =>
          (execCalls os (resizeWindowCalls width height w)).2)).flatten) ∧
    open_url_in_all os url false zoom_percent windows =
      (windows.length,
       (windows.map (fun w =>
          (execCalls os (urlWindowCalls (normalizeUrl (pyStrip url)) w)).2)).flatten) := by
  have hwe : windows.isEmpty = false := by
    cases windows
    · exact absurd rfl hne
    · rfl
  refine ⟨?_, ?_, ?_⟩
  · rw [apply_zoom_to_all, hwe]
    simp [runCaught_eq_flatten]
    rfl
  · rw [resize_all_windows, hwe]
    simp [runCaught_eq_flatten]
    rfl
  · rw [open_url_in_all, hwe]
    simp [hurl, runCaught_eq_flatten]
    rfl

/-- Sample managed windows and a failure oracle used by concrete
instantiations: the oracle raises on the SetForegroundWindow call of
window 1 only. -/
def winA : WinState := ⟨1, true, "AB12".toList, "cw".toList, 0, ⟨0, 0, 0, 0⟩⟩

def winB : WinState := ⟨2, true, "AB13".toList, "cw".toList, 0, ⟨0, 0, 0, 0⟩⟩

def osFailFg1 : Call → Bool :=
  fun c => match c with | Call.setForeground 1 => false | _ => true

/-- Witness for the amended C1: zoom over two windows where the first
window's sub-sequence raises. -/
theorem caught_actions_skip_failures_witness :
    ((pyStrip "x".toList).isEmpty = false) ∧
    ([winA, winB] ≠ ([] : List WinState)) ∧
    apply_zoom_to_all osFailFg1 35 [winA, winB] =
      ([winA, winB].length,
       ([winA, winB].map (fun w =>
          (execCalls osFailFg1 (zoomWindowCalls (zoomStepCount 35) w)).2)).flatten) :=
  ⟨by decide, by simp,
   (caught_actions_skip_failures osFailFg1 [winA, winB] 35 800 900 "x".toList
     (by decide) (by simp)).1⟩

/-- C2 counterexample: zoom over a single window whose sub-sequence
fails at its very first call still returns a count of 1, although zero
windows completed their sub-sequence successfully. -/
theorem zoom_count_ignores_failures :
    (apply_zoom_to_all (fun _ => false) 35 [winA]).1 = 1 ∧
    (execCalls (fun _ => false) (zoomWindowCalls (zoomStepCount 35) winA)).1 = false := by
  exact ⟨rfl, rfl⟩

/-- C2 amended: every action returns 0 on an empty ProfileSet, and
otherwise the total number of windows in the set, regardless of how many
windows' sub-sequences failed: zoom and resize unconditionally, navigate
whenever the URL is not blank, position whenever it completes without an
uncaught exception. -/
theorem actions_return_total_count :
    (∀ (os : Call → Bool) (zp : Int) (ws : List WinState),
        (apply_zoom_to_all os zp ws).1 = ws.length) ∧
    (∀ (os : Call → Bool) (width height : Int) (ws : List WinState),
        (resize_all_windows os width height ws).1 = ws.length) ∧
    (∀ (os : Call → Bool) (url : List Char) (flag : Bool) (zp : Int)
        (ws : List WinState), (pyStrip url).isEmpty = false →
        (open_url_in_all os url flag zp ws).1 = ws.length) ∧
    (∀ (os : Call → Bool) (cfg : LayoutConfig) (ww wh : Nat)
        (ws : List WinState) (n : Nat) (t : List Call),
        position_windows os cfg ww wh ws = Except.ok (n, t) → n = ws.length) := by
  refine ⟨?_, ?_, ?_, ?_⟩
  · intro os zp ws
    cases ws <;> rfl
  · intro os width height ws
    cases ws <;> rfl
  · intro os url flag zp ws h
    cases ws with
    | nil => rfl
    | cons a rest =>
      rw [open_url_in_all]
      simp [h]
  · intro os cfg ww wh ws n t h
    cases ws with
    | nil =>
      rw [position_windows] at h
      simp at h
      simp [h.1]
    | cons a rest =>
      rw [position_windows] at h
      simp only [List.isEmpty_cons, Bool.false_eq_true, if_false] at h
      rcases hr : runUncaught os
          (((a :: rest).zip
              (plan_grid cfg ww wh (a :: rest).length)).map
            fun wc => positionWindowCalls cfg wc.2 wc.1) with ⟨ok, tr⟩
      rw [hr] at h
      cases ok
      · simp at h
      · simp at h
        exact h.1.symm

/-- Witness for the amended C2, instantiating all four actions. -/
theorem actions_return_total_count_witness :
    (apply_zoom_to_all osFailFg1 35 [winA]).1 = [winA].length ∧
    (resize_all_windows osFailFg1 800 900 [winA]).1 = [winA].length ∧
    ((pyStrip "x".toList).isEmpty = false ∧
      (open_url_in_all osFailFg1 "x".toList false 50 [winA]).1 = [winA].length) ∧
    (position_windows (fun _ => true) ⟨0, 0, 10, 10, 550, 600⟩ 1920 1040 [winA]
        = Except.ok (1, [Call.showWindow 1, Call.sleep 3,
            Call.setWindowPos 1 0 0 550 600]) ∧
      (1 : Nat) = [winA].length) :=
  ⟨actions_return_total_count.1 osFailFg1 35 [winA],
   actions_return_total_count.2.1 osFailFg1 800 900 [winA],
   ⟨by decide,
    actions_return_total_count.2.2.1 osFailFg1 "x".toList false 50 [winA] (by decide)⟩,
   ⟨by rfl,
    actions_return_total_count.2.2.2 (fun _ => true) ⟨0, 0, 10, 10, 550, 600⟩
      1920 1040 [winA] 1 _ (by rfl)⟩⟩

/-- Witness for C7's nearest-key property at percentage 60 and key 67. -/
theorem zoomStepCount_spec_witness :
    ((67 : Int) ∈ zoom_steps.map Prod.fst) ∧
    (closestZoomKey 60 - 60).natAbs ≤ ((67 : Int) - 60).natAbs :=
  ⟨by decide, zoomStepCount_spec.1 60 67 (by decide)⟩
